import Mathlib

/-!
Verification of the weather-station transmitter node
(`src/client/main/main.ino`, with the earlier revision in
`src/unnamed/part_001`) against its specification.

The embedding below translates the relevant C++ (Arduino) code into Lean:
machine integers become `Nat`/`Int` with explicit `% 2 ^ w` where overflow
matters, `float` computations become exact rational arithmetic `ℚ`, and the
global flags / sensor reads become explicit parameters of the translated
functions.
-/

namespace WeatherStation

/-! ## Timing constants (main.ino lines 52-55, 107-113)

`ENABLE_POWER_SAVING` is `true` in the source, so `setup()` computes
`transmissionInterval = TRANSMISSION_INTERVAL_BASE / TIMING_SCALER`. -/

def TRANSMISSION_INTERVAL_BASE : ℕ := 5 * 60 * 1000

def TIMING_SCALER : ℕ := 8

def transmissionInterval : ℕ := TRANSMISSION_INTERVAL_BASE / TIMING_SCALER

/-- The value `(unsigned long)-1` used in the overflow branch of `loop()`:
the maximum value of the 32-bit AVR `unsigned long` tick counter. -/
def MAX_TICK : ℕ := 2 ^ 32 - 1

/-! ## Scheduler poll (main.ino lines 251-266)

`loop()` decides whether to fire a transmission cycle from
`lastTransmissionTime` (`last`), `millis()` (`now`) and
`transmissionInterval` (`interval`).  Both `last` and `now` are 32-bit
millisecond tick values (`< 2 ^ 32`). -/

/-- The `shouldTransmit` flag computed by `loop()`:
`lastTransmissionTime == 0` fires immediately; otherwise the no-overflow
branch compares `now - last` with the interval; the overflow branch
(`now < last`) fires unconditionally. -/
def shouldTransmit (last now interval : ℕ) : Bool :=
  if last = 0 then
    true
  else if last ≤ now then
    decide (interval ≤ now - last)
  else
    true

/-- The `elapsedForTransmit` value computed by `loop()` (also recomputed
identically as `elapsed` in the status-log block, lines 294-305):
`0` when `last` is the unset sentinel, `now - last` without overflow, and
`((unsigned long)-1 - last) + now + 1` when the counter wrapped. -/
def elapsedForTransmit (last now : ℕ) : ℕ :=
  if last = 0 then
    0
  else if last ≤ now then
    now - last
  else
    (MAX_TICK - last) + now + 1

/-! ## Sensor acquisition (main.ino lines 57-65 and 337-388)

The C `float` arithmetic of `readSensors` is embedded over exact rationals
`ℚ`; the C casts and `round` become the explicit conversions below. -/

/-- Arduino's `constrain(amt, low, high)` macro,
`(amt < low) ? low : ((amt > high) ? high : amt)`, over rationals. -/
def constrainQ (amt low high : ℚ) : ℚ :=
  if amt < low then low else if high < amt then high else amt

/-- Arduino's `constrain` over `int` values. -/
def constrainZ (amt low high : ℤ) : ℤ :=
  if amt < low then low else if high < amt then high else amt

/-- The C cast of a `float` to an integer type: truncation toward zero. -/
def truncQ (q : ℚ) : ℤ :=
  if 0 ≤ q then ⌊q⌋ else -⌊-q⌋

/-- C99 `round`: nearest integer, halves away from zero. -/
def roundC (q : ℚ) : ℤ :=
  if 0 ≤ q then ⌊q + 1 / 2⌋ else -⌊-q + 1 / 2⌋

/-! Hardware calibration constants (main.ino lines 58-65). -/

def WIND_DIRECTION_OFFSET : ℕ := 0

def WIND_SPEED_RAW_OFFSET : ℤ := 0

def WIND_SPEED_R1 : ℚ := 10000

def WIND_SPEED_R2 : ℚ := 61900

def WIND_SPEED_KOR : ℚ := 80

def WIND_SPEED_VIN_REF : ℚ := 5

/-- Raw hardware values consumed by one `readSensors()` call:
`bme.readTemperature()` (°C), `bme.readPressure()` (Pa),
`bme.readHumidity()` (%), `as5600.getRawAngle()` (0-4095) and
`analogRead(WIND_SPEED_PIN)` (0-1023). -/
structure RawInputs where
  rawTemperature : ℚ
  rawPressure : ℚ
  rawHumidity : ℚ
  rawAngle : ℕ
  rawAnalog : ℤ

/-- The packed `SensorData` struct (main.ino lines 90-96): int32
temperature (hundredths °C), uint32 pressure (Pa), uint16 humidity (%),
uint16 windDirection (degrees), int32 windSpeed (hundredths km/h). -/
structure SensorData where
  temperature : ℤ
  pressure : ℕ
  humidity : ℕ
  windDirection : ℕ
  windSpeed : ℤ
deriving DecidableEq

/-- Wind-direction conversion of `readSensors` (main.ino lines 362-368),
with the calibration offset as a parameter:
`calibratedRaw = (rawAngle + WIND_DIRECTION_OFFSET) % 4096`, then
`degrees = (calibratedRaw / 4096.0) * 360.0`, then
`(uint16_t)round(degrees) % 360`. The `round` result lies in `0..360`, so
the `uint16_t` cast is the (exact) `Int.toNat` conversion. -/
def windDirectionOf (offset rawAngle : ℕ) : ℕ :=
  let calibratedRaw := (rawAngle + offset) % 4096
  let degrees : ℚ := ((calibratedRaw : ℚ) / 4096) * 360
  (roundC degrees).toNat % 360

/-- Wind-speed conversion of `readSensors` (main.ino lines 375-385):
offset and constrain the analog reading to `0..1023`, convert to voltage,
invert the divider, scale by the calibration factor, constrain to
`[0, 1000]` km/h, truncate by the `(int32_t)` cast, then scale by 100.
The final value is at most `100000 < 2 ^ 31`, so the int32 arithmetic is
exact. -/
def windSpeedOf (rawReading : ℤ) : ℤ :=
  let calibratedRaw := constrainZ (rawReading + WIND_SPEED_RAW_OFFSET) 0 1023
  let vout : ℚ := ((calibratedRaw : ℚ) * WIND_SPEED_VIN_REF) / 1024
  let vin : ℚ := vout / (WIND_SPEED_R2 / (WIND_SPEED_R1 + WIND_SPEED_R2))
  truncQ (constrainQ (vin * WIND_SPEED_KOR) 0 1000) * 100

/-- `readSensors()` (main.ino lines 337-388).  `bmeInitialized` and
`as5600Initialized` are the global flags set once in `setup()` and never
written again.  The `(int32_t)` cast on the temperature is the identity
whenever the rounded value fits in int32 (a cast of an out-of-range float
is undefined in C++), so it is modelled as the identity; the pressure and
humidity casts act on already-constrained non-negative values. -/
def readSensors (bmeInitialized as5600Initialized : Bool)
    (raw : RawInputs) : SensorData :=
  { temperature :=
      if bmeInitialized then roundC (raw.rawTemperature * 100) else -999
    pressure :=
      if bmeInitialized then (truncQ (constrainQ raw.rawPressure 0 200000)).toNat
      else 0
    humidity :=
      if bmeInitialized then (truncQ (constrainQ raw.rawHumidity 0 100)).toNat
      else 0
    windDirection :=
      if as5600Initialized then windDirectionOf WIND_DIRECTION_OFFSET raw.rawAngle
      else 0
    windSpeed := windSpeedOf raw.rawAnalog }

/-! ## Wire format (main.ino lines 88-96 and 404-405)

The node transmits the packed struct's byte image directly:
`radio.write(&data, sizeof(data))` on the little-endian AVR.  Bytes are
modelled as naturals below 256. -/

/-- Little-endian byte image of a `w`-byte unsigned value. -/
def toBytesLE : ℕ → ℕ → List ℕ
  | 0, _ => []
  | w + 1, v => v % 256 :: toBytesLE w (v / 256)

/-- Unsigned value of a little-endian byte list. -/
def uintOfBytesLE : List ℕ → ℕ
  | [] => 0
  | b :: bs => b + 256 * uintOfBytesLE bs

/-- Byte image of the packed `SensorData` struct exactly as
`radio.write(&data, sizeof(data))` puts it on the air from the
little-endian AVR: no padding, fields in declaration order, the int32
fields in two's complement (`x mod 2 ^ 32`). -/
def encode (d : SensorData) : List ℕ :=
  toBytesLE 4 (d.temperature % 2 ^ 32).toNat ++
  toBytesLE 4 (d.pressure % 2 ^ 32) ++
  toBytesLE 2 (d.humidity % 2 ^ 16) ++
  toBytesLE 2 (d.windDirection % 2 ^ 16) ++
  toBytesLE 4 (d.windSpeed % 2 ^ 32).toNat

/-- Two's-complement reading of a little-endian 4-byte group. -/
def decodeInt32 (bs : List ℕ) : ℤ :=
  if uintOfBytesLE bs < 2 ^ 31 then (uintOfBytesLE bs : ℤ)
  else (uintOfBytesLE bs : ℤ) - 2 ^ 32

/-- Modelled from the spec: the receiver's decoder is not under `src/`
(only the struct's `<iIHHi` layout comment refers to it), so it follows the
spec's wire-protocol table — 16 bytes, little-endian, no padding: int32
temperature, uint32 pressure, uint16 humidity, uint16 windDirection, int32
windSpeed, at offsets 0, 4, 8, 10, 12. -/
def decode (bs : List ℕ) : Option SensorData :=
  if bs.length = 16 then
    some
      { temperature := decodeInt32 (bs.take 4)
        pressure := uintOfBytesLE ((bs.drop 4).take 4)
        humidity := uintOfBytesLE ((bs.drop 8).take 2)
        windDirection := uintOfBytesLE ((bs.drop 10).take 2)
        windSpeed := decodeInt32 (bs.drop 12) }
  else none

/-! ## Transmitter (main.ino lines 182-187 and 390-416;
src/unnamed/part_001 lines 33 and 244-264)

`radioWrite i` stands for the outcome the radio driver reports for the
`i`-th `radio.write` call of one transmission cycle; the second component
of each result is the number of write calls performed. -/

/-- RF24 driver configuration state relevant to the retry policy: the
`SETUP_RETR` register fields written by `setRetries(delay, count)` and the
auto-acknowledgement feature. -/
structure RadioConfig where
  retryDelay : ℕ
  retryCount : ℕ
  autoAckEnabled : Bool

/-- RF24's `setRetries(delay, count)`: each argument is clipped to its
4-bit register field; auto-ack is untouched. -/
def setRetriesReg (c : RadioConfig) (d n : ℕ) : RadioConfig :=
  { c with retryDelay := d % 16, retryCount := n % 16 }

/-- Configuration left by `radio.begin()`: the driver programs
`setRetries(5, 15)` and powers up with auto-acknowledgement enabled. -/
def rf24BeginConfig : RadioConfig := ⟨5, 15, true⟩

/-- Radio configuration after `setup()` (main.ino line 186):
`radio.setRetries(30, 5)`; `setAutoAck` is never called. -/
def setupRadioConfig : RadioConfig := setRetriesReg rf24BeginConfig 30 5

/-- The fire-and-forget `transmitData` of main.ino (lines 390-416): a
single `radio.write` call with no loop; `success` is that one call's
immediate result. -/
def transmitDataFF (radioWrite : ℕ → Bool) : Bool × ℕ :=
  (radioWrite 0, 1)

/-- MAX_RETRIES, defined as 3 in both revisions. -/
def MAX_RETRIES : ℕ := 3

/-- The retry loop of the earlier revision's `transmitData`
(src/unnamed/part_001 lines 246-259):
`for (int i = 0; i < MAX_RETRIES && !success; i++) success = radio.write(…)`
with a fixed `delay(100)` after a failed attempt.  `fuel` is
`MAX_RETRIES - i` and `i` counts the write calls already made. -/
def retryLoop (radioWrite : ℕ → Bool) : ℕ → ℕ → Bool → Bool × ℕ
  | 0, i, success => (success, i)
  | fuel + 1, i, success =>
    if success then (success, i)
    else retryLoop radioWrite fuel (i + 1) (radioWrite i)

/-- The acknowledged-retry `transmitData` of the earlier revision. -/
def transmitDataRetry (radioWrite : ℕ → Bool) : Bool × ℕ :=
  retryLoop radioWrite MAX_RETRIES 0 false

/-! ## Range lemmas for the conversion helpers -/

theorem constrainQ_mem (x lo hi : ℚ) (h : lo ≤ hi) :
    lo ≤ constrainQ x lo hi ∧ constrainQ x lo hi ≤ hi := by
  unfold constrainQ
  split
  · exact ⟨le_refl lo, h⟩
  · split
    · exact ⟨h, le_refl hi⟩
    · constructor <;> linarith [lt_or_ge x lo, lt_or_ge hi x]

theorem truncQ_constrainQ_mem (x : ℚ) (hi : ℤ) (h : 0 ≤ hi) :
    0 ≤ truncQ (constrainQ x 0 (hi : ℚ)) ∧
    truncQ (constrainQ x 0 (hi : ℚ)) ≤ hi := by
  obtain ⟨h0, h1⟩ := constrainQ_mem x 0 hi (by exact_mod_cast h)
  rw [truncQ, if_pos h0]
  refine ⟨Int.floor_nonneg.mpr h0, ?_⟩
  calc ⌊constrainQ x 0 (hi : ℚ)⌋ ≤ ⌊(hi : ℚ)⌋ := Int.floor_le_floor h1
    _ = hi := Int.floor_intCast hi

theorem windSpeedOf_mem (raw : ℤ) :
    0 ≤ windSpeedOf raw ∧ windSpeedOf raw ≤ 100000 := by
  simp only [windSpeedOf]
  have h := truncQ_constrainQ_mem
    ((constrainZ (raw + WIND_SPEED_RAW_OFFSET) 0 1023 : ℚ) * WIND_SPEED_VIN_REF / 1024
      / (WIND_SPEED_R2 / (WIND_SPEED_R1 + WIND_SPEED_R2)) * WIND_SPEED_KOR)
    1000 (by norm_num)
  push_cast at h
  omega

theorem windDirectionOf_lt (offset rawAngle : ℕ) :
    windDirectionOf offset rawAngle < 360 := by
  unfold windDirectionOf
  exact Nat.mod_lt _ (by norm_num)

/-! ## Wire-format lemmas -/

theorem length_toBytesLE (w v : ℕ) : (toBytesLE w v).length = w := by
  induction w generalizing v with
  | zero => rfl
  | succ w ih => simp [toBytesLE, ih]

theorem mem_toBytesLE_lt (w v : ℕ) : ∀ b ∈ toBytesLE w v, b < 256 := by
  induction w generalizing v with
  | zero => simp [toBytesLE]
  | succ w ih =>
    intro b hb
    rcases List.mem_cons.mp hb with h | h
    · omega
    · exact ih (v / 256) b h

theorem uintOfBytesLE_toBytesLE (w v : ℕ) (h : v < 256 ^ w) :
    uintOfBytesLE (toBytesLE w v) = v := by
  induction w generalizing v with
  | zero =>
    simp only [toBytesLE, uintOfBytesLE]
    omega
  | succ w ih =>
    have hp : 256 ^ (w + 1) = 256 ^ w * 256 := pow_succ 256 w
    have hd : v / 256 < 256 ^ w := by
      rw [hp] at h
      omega
    simp only [toBytesLE, uintOfBytesLE, ih (v / 256) hd]
    omega

theorem decodeInt32_toBytesLE (t : ℤ) (h1 : -(2 ^ 31) ≤ t) (h2 : t < 2 ^ 31) :
    decodeInt32 (toBytesLE 4 (t % 2 ^ 32).toNat) = t := by
  have hb : (t % 2 ^ 32).toNat < 256 ^ 4 := by
    norm_num
    omega
  rw [decodeInt32, uintOfBytesLE_toBytesLE 4 _ hb]
  split <;> omega

/-! ## Transmitter lemmas -/

theorem transmitDataRetry_eq (w : ℕ → Bool) :
    transmitDataRetry w =
      if w 0 then (true, 1) else if w 1 then (true, 2) else (w 2, 3) := by
  have step0 : transmitDataRetry w = retryLoop w 2 1 (w 0) := rfl
  rw [step0]
  cases h0 : w 0 with
  | true => rfl
  | false =>
    have step1 : retryLoop w 2 1 false = retryLoop w 1 2 (w 1) := rfl
    rw [step1, if_neg (by simp)]
    cases h1 : w 1 with
    | true => rfl
    | false =>
      have step2 : retryLoop w 1 2 false = retryLoop w 0 3 (w 2) := rfl
      rw [step2, if_neg (by simp)]
      rfl

end WeatherStation

open WeatherStation

/-- C2 counterexample: at `lastTransmissionTime = 2 ^ 32 - 1 ≠ 0`,
`currentTime = 1000` (the counter wrapped) and the source's interval
`37500`, the loop fires the transmission even though the wraparound-safe
elapsed time is only `1001 < 37500`; so firing is not equivalent to
"sentinel or elapsed at least the interval". -/
theorem c2_fire_iff_counterexample :
    shouldTransmit 4294967295 1000 transmissionInterval = true ∧
    ¬(4294967295 = 0 ∨
      transmissionInterval ≤ elapsedForTransmit 4294967295 1000) := by
  constructor
  · decide
  · decide

/-- C2 (amended): a Scheduler poll fires a transmission cycle iff
`lastTransmissionTime` is the unset sentinel `0`, or the tick counter
wrapped (`now < last`, fired unconditionally), or `now - last` is at least
`transmissionInterval`; in particular the first ever poll (`last = 0`)
fires immediately. -/
theorem c2_fire_condition :
    (∀ last now interval : ℕ,
      shouldTransmit last now interval = true ↔
        (last = 0 ∨ now < last ∨ interval ≤ now - last)) ∧
    (∀ now interval : ℕ, shouldTransmit 0 now interval = true) := by
  constructor
  · intro last now interval
    unfold shouldTransmit
    split
    · simp_all
    · split
      · simp only [decide_eq_true_eq]
        omega
      · simp only [true_iff]
        omega
  · intro now interval
    rfl

/-- C3: for 32-bit tick values with `last` not the unset sentinel, the
elapsed time computed by `loop()` equals the true modular delta
`(now - last) mod 2 ^ 32` (always non-negative). -/
theorem c3_elapsed_modular (last now : ℕ)
    (hlast : last < 2 ^ 32) (hnow : now < 2 ^ 32) (h0 : last ≠ 0) :
    (elapsedForTransmit last now : ℤ) = ((now : ℤ) - (last : ℤ)) % 2 ^ 32 ∧
    0 ≤ ((now : ℤ) - (last : ℤ)) % 2 ^ 32 := by
  unfold elapsedForTransmit MAX_TICK
  constructor
  · split
    · omega
    · split <;> push_cast <;> omega
  · omega

/-- C3 witness: the counter wraps from `4294967290` to `5`; the loop
computes elapsed `11`, the true modular delta. -/
theorem c3_elapsed_modular_witness :
    (elapsedForTransmit 4294967290 5 : ℤ) =
      ((5 : ℤ) - (4294967290 : ℤ)) % 2 ^ 32 ∧
    0 ≤ ((5 : ℤ) - (4294967290 : ℤ)) % 2 ^ 32 :=
  c3_elapsed_modular 4294967290 5 (by norm_num) (by norm_num) (by norm_num)

/-- C4 counterexample: the temperature field is not clamped at all.  With
the BME280 available and a raw reading of `±10 ^ 6` °C — far outside every
documented range (the widest documented bound anywhere in the format is
`200000`, and the sentinel is `-999`) — `readSensors` stores exactly
`round(raw * 100)` verbatim in the packet, so out-of-range raw sensor
output is encoded verbatim for the temperature field. -/
theorem c4_unclamped_temperature_counterexample :
    (readSensors true true ⟨1000000, 101325, 50, 0, 0⟩).temperature
      = 100000000 ∧
    (readSensors true true ⟨-1000000, 101325, 50, 0, 0⟩).temperature
      = -100000000 := by
  constructor <;> norm_num [readSensors, roundC]

/-- C4 (amended): pressure, humidity, windDirection and windSpeed are each
independently clamped to their documented ranges before encoding, for every
raw input; the temperature field, however, is not clamped — whenever the
BME280 is available it is exactly `round(raw * 100)`, the raw sensor output
stored verbatim up to fixed-point scaling. -/
theorem c4_fields_clamped_except_temperature :
    (∀ (bmeI asI : Bool) (raw : RawInputs),
      (readSensors bmeI asI raw).pressure ≤ 200000 ∧
      (readSensors bmeI asI raw).humidity ≤ 100 ∧
      (readSensors bmeI asI raw).windDirection ≤ 359 ∧
      0 ≤ (readSensors bmeI asI raw).windSpeed ∧
      (readSensors bmeI asI raw).windSpeed ≤ 100000) ∧
    (∀ (asI : Bool) (raw : RawInputs),
      (readSensors true asI raw).temperature
        = roundC (raw.rawTemperature * 100)) := by
  constructor
  · intro bmeI asI raw
    have hws := windSpeedOf_mem raw.rawAnalog
    have hp := truncQ_constrainQ_mem raw.rawPressure 200000 (by norm_num)
    have hh := truncQ_constrainQ_mem raw.rawHumidity 100 (by norm_num)
    have hwd := windDirectionOf_lt WIND_DIRECTION_OFFSET raw.rawAngle
    push_cast at hp hh
    simp only [readSensors]
    cases bmeI <;> cases asI <;> simp <;> omega
  · intro asI raw
    rfl

/-- C5: whenever the BME280 initialization flag is false, every cycle's
`readSensors` result carries the sentinels temperature `-999`, pressure `0`
and humidity `0`, and whenever the AS5600 flag is false it carries
windDirection `0`, for any sequence of raw inputs and any cycle count. -/
theorem c5_uninitialized_sensor_sentinels :
    (∀ (env : ℕ → RawInputs) (cycle : ℕ) (asI : Bool),
      (readSensors false asI (env cycle)).temperature = -999 ∧
      (readSensors false asI (env cycle)).pressure = 0 ∧
      (readSensors false asI (env cycle)).humidity = 0) ∧
    (∀ (env : ℕ → RawInputs) (cycle : ℕ) (bmeI : Bool),
      (readSensors bmeI false (env cycle)).windDirection = 0) := by
  exact ⟨fun env cycle asI => ⟨rfl, rfl, rfl⟩, fun env cycle bmeI => rfl⟩

/-- C8: with the AS5600 available, `readSensors` computes the wind
direction as `round(((raw + offset) mod 4096) / 4096 * 360) mod 360`; the
result is always in `0..359`; a raw angle of exactly `4095` plus a nonzero
offset wraps modulo 4096 before the degree conversion (offset `1` gives
`0`), and a near-top raw value wraps to `0` rather than yielding `360`. -/
theorem c8_wind_direction_conversion :
    (∀ (bmeI : Bool) (raw : RawInputs),
      (readSensors bmeI true raw).windDirection
        = windDirectionOf WIND_DIRECTION_OFFSET raw.rawAngle) ∧
    (∀ offset rawAngle : ℕ,
      windDirectionOf offset rawAngle
        = (roundC ((((rawAngle + offset) % 4096 : ℕ) : ℚ) / 4096 * 360)).toNat
            % 360) ∧
    (∀ offset rawAngle : ℕ, windDirectionOf offset rawAngle ≤ 359) ∧
    windDirectionOf 1 4095 = 0 ∧
    windDirectionOf 0 4095 = 0 := by
  refine ⟨fun bmeI raw => rfl, fun offset rawAngle => rfl, ?_, ?_, ?_⟩
  · intro offset rawAngle
    have := windDirectionOf_lt offset rawAngle
    omega
  · norm_num [windDirectionOf, roundC]
  · norm_num [windDirectionOf, roundC]
    decide

/-- C9: the windSpeed field produced by `readSensors` is non-negative and
at most `100000` for every raw analog reading (the km/h value is clamped to
`[0, 1000]` before the fixed-point scaling by 100); the boundary inputs `0`
and `1023` map to `0` and `46400` hundredths respectively — in range, with
no overflow and no negative result. -/
theorem c9_wind_speed_clamped :
    (∀ (bmeI asI : Bool) (raw : RawInputs),
      0 ≤ (readSensors bmeI asI raw).windSpeed ∧
      (readSensors bmeI asI raw).windSpeed ≤ 100000) ∧
    windSpeedOf 0 = 0 ∧ windSpeedOf 1023 = 46400 := by
  refine ⟨fun bmeI asI raw => windSpeedOf_mem raw.rawAnalog, ?_, ?_⟩ <;>
    norm_num [windSpeedOf, truncQ, constrainQ, constrainZ, WIND_SPEED_RAW_OFFSET,
      WIND_SPEED_VIN_REF, WIND_SPEED_R1, WIND_SPEED_R2, WIND_SPEED_KOR]

/-- Enumeration of the indices below `3`, used to settle the retry-policy
quantifier. -/
theorem exists_lt_three_iff (P : ℕ → Prop) :
    (∃ i < 3, P i) ↔ P 0 ∨ P 1 ∨ P 2 := by
  constructor
  · rintro ⟨i, hi, hp⟩
    interval_cases i
    · exact Or.inl hp
    · exact Or.inr (Or.inl hp)
    · exact Or.inr (Or.inr hp)
  · rintro (h | h | h)
    exacts [⟨0, by norm_num, h⟩, ⟨1, by norm_num, h⟩, ⟨2, by norm_num, h⟩]

/-- C1: encoding a reading whose five fields are within their documented
ranges as the packed struct yields exactly 16 bytes (each a value below
256, no padding), and decoding those bytes with the little-endian
int32/uint32/uint16/uint16/int32 layout reproduces the five integer fields
exactly. -/
theorem c1_wirepacket_roundtrip (d : SensorData)
    (ht1 : -(2 ^ 31) ≤ d.temperature) (ht2 : d.temperature < 2 ^ 31)
    (hp : d.pressure ≤ 200000) (hh : d.humidity ≤ 100)
    (hw : d.windDirection ≤ 359)
    (hs1 : 0 ≤ d.windSpeed) (hs2 : d.windSpeed ≤ 100000) :
    (encode d).length = 16 ∧ (∀ b ∈ encode d, b < 256) ∧
    decode (encode d) = some d := by
  have hlen : (encode d).length = 16 := by
    simp [encode, length_toBytesLE]
  refine ⟨hlen, ?_, ?_⟩
  · intro b hb
    rw [encode] at hb
    rcases List.mem_append.mp hb with hb2 | h
    swap
    · exact mem_toBytesLE_lt _ _ b h
    rcases List.mem_append.mp hb2 with hb3 | h
    swap
    · exact mem_toBytesLE_lt _ _ b h
    rcases List.mem_append.mp hb3 with hb4 | h
    swap
    · exact mem_toBytesLE_lt _ _ b h
    rcases List.mem_append.mp hb4 with h | h <;> exact mem_toBytesLE_lt _ _ b h
  · have e1 : (encode d).take 4 = toBytesLE 4 (d.temperature % 2 ^ 32).toNat := rfl
    have e2 : ((encode d).drop 4).take 4 = toBytesLE 4 (d.pressure % 2 ^ 32) := rfl
    have e3 : ((encode d).drop 8).take 2 = toBytesLE 2 (d.humidity % 2 ^ 16) := rfl
    have e4 : ((encode d).drop 10).take 2 = toBytesLE 2 (d.windDirection % 2 ^ 16) := rfl
    have e5 : (encode d).drop 12 = toBytesLE 4 (d.windSpeed % 2 ^ 32).toNat := rfl
    have f2 : uintOfBytesLE (toBytesLE 4 (d.pressure % 2 ^ 32)) = d.pressure := by
      have hmod : d.pressure % 2 ^ 32 = d.pressure := Nat.mod_eq_of_lt (by omega)
      rw [hmod, uintOfBytesLE_toBytesLE 4 d.pressure (by norm_num; omega)]
    have f3 : uintOfBytesLE (toBytesLE 2 (d.humidity % 2 ^ 16)) = d.humidity := by
      have hmod : d.humidity % 2 ^ 16 = d.humidity := Nat.mod_eq_of_lt (by omega)
      rw [hmod, uintOfBytesLE_toBytesLE 2 d.humidity (by norm_num; omega)]
    have f4 : uintOfBytesLE (toBytesLE 2 (d.windDirection % 2 ^ 16))
        = d.windDirection := by
      have hmod : d.windDirection % 2 ^ 16 = d.windDirection :=
        Nat.mod_eq_of_lt (by omega)
      rw [hmod, uintOfBytesLE_toBytesLE 2 d.windDirection (by norm_num; omega)]
    rw [decode, if_pos hlen, e1, e2, e3, e4, e5,
      decodeInt32_toBytesLE d.temperature ht1 ht2,
      decodeInt32_toBytesLE d.windSpeed (by omega) (by omega), f2, f3, f4]

/-- C1 witness: the spec's example reading — temperature 2550 (25.50 °C),
pressure 101325 Pa, humidity 45 %, windDirection 180°, windSpeed 1550
(15.50 km/h) — encodes to 16 bytes and decodes back to itself. -/
theorem c1_wirepacket_roundtrip_witness :
    (encode ⟨2550, 101325, 45, 180, 1550⟩).length = 16 ∧
    (∀ b ∈ encode ⟨2550, 101325, 45, 180, 1550⟩, b < 256) ∧
    decode (encode ⟨2550, 101325, 45, 180, 1550⟩)
      = some ⟨2550, 101325, 45, 180, 1550⟩ :=
  c1_wirepacket_roundtrip ⟨2550, 101325, 45, 180, 1550⟩ (by norm_num)
    (by norm_num) (by norm_num) (by norm_num) (by norm_num) (by norm_num)
    (by norm_num)

/-- C6 (the code evaluated at the failing configuration): `transmitData`
does perform exactly one radio write per cycle with no retry loop, and its
success flag is the single write call's immediate result; but `setup()`
leaves the driver's auto-retry count at 5 with auto-acknowledgement still
enabled — `setRetries(30, 5)` does not disable the low-level
auto-retry/ACK features, contradicting the source's own comment
"Disable auto-retry and ACK (fire and forget)". -/
theorem c6_single_write_but_retries_enabled :
    (∀ radioWrite : ℕ → Bool, transmitDataFF radioWrite = (radioWrite 0, 1)) ∧
    setupRadioConfig.retryCount = 5 ∧
    setupRadioConfig.retryCount ≠ 0 ∧
    setupRadioConfig.autoAckEnabled = true :=
  ⟨fun _ => rfl, rfl, by decide, rfl⟩

/-- C7: the acknowledged-retry `transmitData` makes between 1 and
`MAX_RETRIES = 3` write attempts, stops at the first success (every
attempt before the final one failed), and reports success iff one of the
first three attempts succeeds; a radio that fails twice and succeeds on
the third attempt yields exactly 3 attempts and overall success. -/
theorem c7_acknowledged_retry_policy :
    (∀ radioWrite : ℕ → Bool,
      1 ≤ (transmitDataRetry radioWrite).2 ∧
      (transmitDataRetry radioWrite).2 ≤ MAX_RETRIES ∧
      ((transmitDataRetry radioWrite).1 = true ↔
        ∃ i < MAX_RETRIES, radioWrite i = true) ∧
      (∀ i, i + 1 < (transmitDataRetry radioWrite).2 →
        radioWrite i = false)) ∧
    transmitDataRetry (fun i => decide (2 ≤ i)) = (true, 3) := by
  constructor
  · intro w
    have he := transmitDataRetry_eq w
    rw [MAX_RETRIES, exists_lt_three_iff]
    cases h0 : w 0 with
    | true =>
      rw [h0] at he
      norm_num at he
      rw [he]
      refine ⟨by norm_num, by norm_num, by simp [h0], ?_⟩
      intro i hi
      norm_num at hi
    | false =>
      rw [h0] at he
      norm_num at he
      cases h1 : w 1 with
      | true =>
        rw [h1] at he
        norm_num at he
        rw [he]
        refine ⟨by norm_num, by norm_num, by simp [h1], ?_⟩
        intro i hi
        have hz : i = 0 := by omega
        rw [hz]
        exact h0
      | false =>
        rw [h1] at he
        norm_num at he
        rw [he]
        refine ⟨by norm_num, by norm_num, by simp [h0, h1], ?_⟩
        intro i hi
        norm_num at hi
        have hcase : i = 0 ∨ i = 1 := by omega
        rcases hcase with h | h <;> rw [h] <;> assumption
  · rw [transmitDataRetry_eq]
    norm_num

/-- C10: the windSpeed field is always an exact multiple of 100 — the km/h
value is truncated to a whole integer by the `(int32_t)` cast before the
`* 100` fixed-point scaling, so the hundredths part on the wire is zero. -/
theorem c10_wind_speed_whole_kmh :
    ∀ (bmeI asI : Bool) (raw : RawInputs),
      (readSensors bmeI asI raw).windSpeed % 100 = 0 := by
  intro bmeI asI raw
  show windSpeedOf raw.rawAnalog % 100 = 0
  simp only [windSpeedOf]
  omega
